import Mathlib

/-!
Shallow embedding of `context/__init__.py` (pycontext): a diagnostic
introspection module.  Python runtime values are modelled by `PyVal`,
stack frames by `PyFrame` (a finite chain linked through `back`, the
model of `f_back`), and the exceptions the code can raise by `PyError`.
Machinery from the standard library that the module calls
(`inspect.getframeinfo`, argument binding at call time, `json.dumps`
serializability) is modelled from CPython's documented behaviour, since
the repository's semantics depend on it.
-/

/-- Model of a Python runtime value, covering the shapes that flow
through this module: scalars, strings, byte strings, tuples/lists,
string-keyed dicts, and (opaque, identified by a tag) code objects. -/
inductive PyVal where
  | pnone
  | pbool (b : Bool)
  | pint (n : Int)
  | pstr (s : String)
  | pbytes (bs : List Nat)
  | pcode (tag : Nat)
  | ptuple (xs : List PyVal)
  | plist (xs : List PyVal)
  | pdict (kvs : List (String × PyVal))

/-- Exception kinds this module can raise or catch.  The code defines no
exception classes of its own (in particular there is no `NoCallerFrame`
and no `SourceUnavailable` class anywhere in the source). -/
inductive PyError where
  | typeError
  | keyError
  | indexError
  | osError
  | attributeError
  | recursionError
  | memoryError
  | zeroDivisionError
  | nameError
  | syntaxError
  | keyboardInterrupt
  | overflowError
  | importError
deriving DecidableEq

/-- `value is None` test used by `FunctionContext.valueargs`. -/
def PyVal.isNone : PyVal → Bool
  | .pnone => true
  | _ => false

/-- Ordered lookup in an association list, modelling `d[k]`-style access
on a Python dict built in insertion order. -/
def lookupVal (m : List (String × PyVal)) (k : String) : Option PyVal :=
  match m with
  | [] => Option.none
  | kv :: rest => if kv.1 = k then some kv.2 else lookupVal rest k

/-- Model of one Python stack frame: the caller link `f_back`, the
current line `f_lineno`, the code object's filename, the `f_builtins`,
`f_globals` and `f_locals` namespaces, the declared parameter names of
the code object (`co_varnames[:co_argcount]`, what
`inspect.getargvalues` reports as `args`), and the source text of the
frame's file as a list of lines (`None` when `inspect` cannot locate
the source, e.g. interactive or generated code). -/
inductive PyFrame where
  | mk (back : Option PyFrame) (f_lineno : Nat) (filename : String)
      (f_builtins : List (String × PyVal)) (f_globals : List (String × PyVal))
      (f_locals : List (String × PyVal)) (argNames : List String)
      (sourceLines : Option (List String))

def PyFrame.back : PyFrame → Option PyFrame
  | .mk b _ _ _ _ _ _ _ => b

def PyFrame.f_lineno : PyFrame → Nat
  | .mk _ l _ _ _ _ _ _ => l

def PyFrame.filename : PyFrame → String
  | .mk _ _ fn _ _ _ _ _ => fn

def PyFrame.f_builtins : PyFrame → List (String × PyVal)
  | .mk _ _ _ bi _ _ _ _ => bi

def PyFrame.f_globals : PyFrame → List (String × PyVal)
  | .mk _ _ _ _ gl _ _ _ => gl

def PyFrame.f_locals : PyFrame → List (String × PyVal)
  | .mk _ _ _ _ _ lo _ _ => lo

def PyFrame.argNames : PyFrame → List String
  | .mk _ _ _ _ _ _ an _ => an

def PyFrame.sourceLines : PyFrame → Option (List String)
  | .mk _ _ _ _ _ _ _ sl => sl

/-- Models the runtime advancing the (mutable, aliased) frame to a new
current line: all other frame state is unchanged. -/
def PyFrame.setLineno : PyFrame → Nat → PyFrame
  | .mk b _ fn bi gl lo an sl, n => .mk b n fn bi gl lo an sl

/-- `FunctionContext` from the source: holds the frame it was built on.
`objId` models Python object identity (allocation number), used to state
that the memoizing caches return the same object rather than an equal
recomputed one. -/
structure FunctionContext where
  objId : Nat
  frameRef : PyFrame

/-- `ProgramObject` from the source: holds the frame it was built on,
with `objId` modelling object identity as for `FunctionContext`. -/
structure ProgramObject where
  objId : Nat
  frameRef : PyFrame

/-- `FunctionContext.args`: the dict comprehension
`\x7barg: arginfo.locals[arg] for arg in arginfo.args\x7d`.  A name
missing from `f_locals` makes the subscript raise `KeyError` (cannot
happen on a real frame, but the embedding keeps the fallible access). -/
def frameArgsGo (locals : List (String × PyVal)) :
    List String → Except PyError (List (String × PyVal))
  | [] => .ok []
  | a :: rest =>
    match lookupVal locals a with
    | some v => (frameArgsGo locals rest).map (fun l => (a, v) :: l)
    | Option.none => .error .keyError

def frameArgs (f : PyFrame) : Except PyError (List (String × PyVal)) :=
  frameArgsGo f.f_locals f.argNames

def FunctionContext.args (fc : FunctionContext) :
    Except PyError (List (String × PyVal)) :=
  frameArgs fc.frameRef

/-- `FunctionContext.valueargs`: `self.args` filtered to the entries
whose value `is not None`. -/
def FunctionContext.valueargs (fc : FunctionContext) :
    Except PyError (List (String × PyVal)) :=
  fc.args.map (List.filter (fun kv => !(PyVal.isNone kv.2)))

/-- Call-time parameter binding in Python: each declared parameter takes
the explicitly supplied value when present, otherwise its declared
default; a missing required argument raises `TypeError`.  This is the
step that fills `f_locals` for the parameter names of a frame. -/
def bindArgs : List (String × Option PyVal) → List (String × PyVal) →
    Except PyError (List (String × PyVal))
  | [], _ => .ok []
  | (nm, d) :: rest, supplied =>
    match (match lookupVal supplied nm with
           | some v => some v
           | Option.none => d) with
    | some v => (bindArgs rest supplied).map (fun l => (nm, v) :: l)
    | Option.none => .error .typeError

/-- The snapshot `inspect.getframeinfo` returns (the fields this module
consumes): filename, line number, the `context` lines of source around
the current line, and the index of the current line within them;
`code_context` and `index` are `None` when the source is unavailable. -/
structure FrameSnapshotInfo where
  filename : String
  lineno : Nat
  code_context : Option (List String)
  index : Option Nat

/-- `inspect.getframeinfo(frame, context)`, modelled from CPython: when
`findsource` fails (no source text) both `code_context` and `index` are
`None`; otherwise `start = lineno - 1 - context//2` clamped into
`[0, len(lines) - context]`, the context is `lines[start:start+context]`
and `index = lineno - 1 - start`.  The clamp arithmetic is over `Int`
as in Python; `index` is stored as a `Nat` (it is nonnegative whenever
`lineno >= 1`). -/
def getframeinfo (f : PyFrame) (context : Nat) : FrameSnapshotInfo :=
  match f.sourceLines with
  | Option.none =>
    { filename := f.filename, lineno := f.f_lineno,
      code_context := Option.none, index := Option.none }
  | some lines =>
    let start0 : Int := (f.f_lineno : Int) - 1 - ((context / 2 : Nat) : Int)
    let start : Nat :=
      (max 0 (min start0 ((lines.length : Int) - (context : Int)))).toNat
    { filename := f.filename, lineno := f.f_lineno,
      code_context := some ((lines.drop start).take context),
      index := some (f.f_lineno - 1 - start) }

/-- `ContextObject` from the source: the wrapped frame, the frame-info
snapshot `self._info = inspect.getframeinfo(frame, 3)` taken in
`__init__`, and the two memoization slots initialized to `None`.
`nextId` is the model's allocation counter for the object identities of
the memoized sub-objects. -/
structure ContextObject where
  frameRef : PyFrame
  info : FrameSnapshotInfo
  cachedFunction : Option FunctionContext
  cachedProgram : Option ProgramObject
  nextId : Nat

/-- `ContextObject.__init__(frame)`, on the value that was passed in for
`frame`.  `inspect.getframeinfo` raises `TypeError` when its argument is
not a frame — in particular when `None` arrives from `frame.f_back` at
the outermost frame. -/
def ContextObject.init : Option PyFrame → Except PyError ContextObject
  | Option.none => .error .typeError
  | some f =>
    .ok { frameRef := f, info := getframeinfo f 3,
          cachedFunction := Option.none, cachedProgram := Option.none,
          nextId := 0 }

/-- The `ContextObject` freshly built over frame `f`
(`ContextObject.init (some f)` always succeeds with this value). -/
def freshCtx (f : PyFrame) : ContextObject :=
  { frameRef := f, info := getframeinfo f 3,
    cachedFunction := Option.none, cachedProgram := Option.none,
    nextId := 0 }

/-- The `function` property: `if self._function: return self._function`
(a `FunctionContext` instance is always truthy, so the test is a cache
hit check), else construct `FunctionContext(self._frame)`, store it and
return it.  Returns the property value together with the object's state
after the access. -/
def ContextObject.functionProp (c : ContextObject) :
    FunctionContext × ContextObject :=
  match c.cachedFunction with
  | some fc => (fc, c)
  | Option.none =>
    let fc : FunctionContext := ⟨c.nextId, c.frameRef⟩
    (fc, { c with cachedFunction := some fc, nextId := c.nextId + 1 })

/-- The `program` property: same memoization shape as `function`, with a
`ProgramObject`. -/
def ContextObject.programProp (c : ContextObject) :
    ProgramObject × ContextObject :=
  match c.cachedProgram with
  | some p => (p, c)
  | Option.none =>
    let p : ProgramObject := ⟨c.nextId, c.frameRef⟩
    (p, { c with cachedProgram := some p, nextId := c.nextId + 1 })

/-- The `lineno` property: `return self._frame.f_lineno` — a live read
of the frame, not a read of the `_info` snapshot. -/
def ContextObject.lineno (c : ContextObject) : Nat :=
  c.frameRef.f_lineno

/-- The `filename` property: `return self._info.filename` — read from
the construction-time snapshot. -/
def ContextObject.filename (c : ContextObject) : String :=
  c.info.filename

/-- The `prevctx` property: `return ContextObject(self._frame.f_back)`. -/
def ContextObject.prevctx (c : ContextObject) : Except PyError ContextObject :=
  ContextObject.init c.frameRef.back

/-- Python subscript `ctx[idx]` as used by `sourcelns`:
`None[...]` and `xs[None]` raise `TypeError`, an out-of-range index
raises `IndexError`. -/
def pySubscript (ctx : Option (List String)) (idx : Option Nat) :
    Except PyError String :=
  match ctx, idx with
  | Option.none, _ => .error .typeError
  | some _, Option.none => .error .typeError
  | some xs, some i =>
    match xs.get? i with
    | some s => .ok s
    | Option.none => .error .indexError

/-- The `sourcelns` property:
`try: return self._info.code_context[self._info.index]
except TypeError: return None`. -/
def ContextObject.sourcelns (c : ContextObject) :
    Except PyError (Option String) :=
  match pySubscript c.info.code_context c.info.index with
  | .ok s => .ok (some s)
  | .error .typeError => .ok Option.none
  | .error e => .error e

/-- Mutation of the context's aliased frame between accesses: the
runtime advances the frame to a new current line.  The `_frame`
reference sees the new line; the `_info` snapshot taken in `__init__`
is unchanged. -/
def ContextObject.withFrameAdvanced (c : ContextObject) (newLine : Nat) :
    ContextObject :=
  { c with frameRef := c.frameRef.setLineno newLine }

/-- The named properties of the module's ambient surface that the claim
enumerates (mirroring `ContextObject`'s public surface). -/
inductive CtxProp where
  | function
  | builtins
  | globals
  | lineno
  | filename
  | program
  | prevctx

/-- The value a `ContextObject` property access produces, by property. -/
inductive PropValue where
  | functionView (fc : FunctionContext)
  | mapping (m : List (String × PyVal))
  | line (n : Nat)
  | fileName (s : String)
  | programView (p : ProgramObject)
  | contextResult (c : Except PyError ContextObject)

/-- `getattr(ctx, name)` over the properties of `CtxProp`.  The facade
discards the context object after the access, so only the returned
value matters (the memoization state updates are internal). -/
def ContextObject.getattrDyn (c : ContextObject) : CtxProp → PropValue
  | .function => .functionView c.functionProp.1
  | .builtins => .mapping c.frameRef.f_builtins
  | .globals => .mapping c.frameRef.f_globals
  | .lineno => .line c.lineno
  | .filename => .fileName c.filename
  | .program => .programView c.programProp.1
  | .prevctx => .contextResult c.prevctx

/-- A call pushes a fresh frame for the callee whose `f_back` is the
caller's frame (the remaining frame state of the module's own internal
frames is immaterial to the walk). -/
def pushFrame (caller : PyFrame) : PyFrame :=
  .mk (some caller) 0 "context/__init__.py" [] [] [] [] Option.none

/-- `frameify()` from the source:
`return inspect.currentframe().f_back`, where `ownFrame` is the frame
`frameify` itself executes in, so the result is `frameify`'s caller. -/
def frameify (ownFrame : PyFrame) : Option PyFrame :=
  ownFrame.back

/-- The module-level `__getattr__(name)`:
`return getattr(ContextObject(frameify().f_back), name)`.  `ownFrame`
is the frame `__getattr__` executes in; `frameify` is called from it,
so `frameify` runs in `pushFrame ownFrame` and returns `ownFrame`
itself; `.f_back` on that skips `__getattr__`'s frame and lands on the
external caller (`.f_back` on `None` would raise `AttributeError`). -/
def moduleGetattr (ownFrame : PyFrame) (p : CtxProp) :
    Except PyError PropValue :=
  match frameify (pushFrame ownFrame) with
  | Option.none => .error .attributeError
  | some fr => (ContextObject.init fr.back).map (fun c => c.getattrDyn p)

/-- The fault categories of `ProgramObject.crash`, in branch order:
branches `num == 0` through `num == 10` and the final `else` branch
(the missing-module import). -/
inductive FaultCategory where
  | recursionCrash
  | outOfMemory
  | divisionByZero
  | undefinedName
  | undefinedAttribute
  | malformedCode
  | userInterrupt
  | invalidOperator
  | removeAbsent
  | keyNotFound
  | magnitudeOverflow
  | missingModule
deriving DecidableEq

/-- The selector normalization at the top of `crash`:
`if (num is None) or (not (0 <= num <= 10)): num = random.randint(0, 10)`.
`rand` is the value `random.randint(0, 10)` would produce (always in
`[0, 10]`). -/
def crashSelect (num : Option Int) (rand : Int) : Int :=
  match num with
  | Option.none => rand
  | some n => if 0 ≤ n ∧ n ≤ 10 then n else rand

/-- The `if/elif/else` dispatch of `crash` on the normalized selector. -/
def crashDispatch (n : Int) : FaultCategory :=
  if n = 0 then .recursionCrash
  else if n = 1 then .outOfMemory
  else if n = 2 then .divisionByZero
  else if n = 3 then .undefinedName
  else if n = 4 then .undefinedAttribute
  else if n = 5 then .malformedCode
  else if n = 6 then .userInterrupt
  else if n = 7 then .invalidOperator
  else if n = 8 then .removeAbsent
  else if n = 9 then .keyNotFound
  else if n = 10 then .magnitudeOverflow
  else .missingModule

/-- The single fault category a `crash(num)` call executes, given the
value the random reselection would produce. -/
def crashCategory (num : Option Int) (rand : Int) : FaultCategory :=
  crashDispatch (crashSelect num rand)

/-- Outcome of the `num == 0` branch of `crash`. -/
inductive CrashOutcome where
  | ret
  | recursionError
deriving DecidableEq

/-- The `num == 0` branch of `crash`:
`try: self.crash(0)
except RecursionError: return self.crash(0)`.
`fuel` is the number of stack levels left before the interpreter's
recursion guard fires: invoking `crash(0)` with no fuel raises
`RecursionError` at the call site; otherwise the body runs, the inner
call gets one level less, and on `RecursionError` the handler retries
the call once, propagating whatever that retry does. -/
def crash0 : Nat → CrashOutcome
  | 0 => .recursionError
  | fuel + 1 =>
    match crash0 fuel with
    | .ret => .ret
    | .recursionError => crash0 fuel

/-- Parameter kinds of `inspect.Parameter` (an `IntEnum`). -/
inductive ParamKind where
  | positionalOnly
  | positionalOrKeyword
  | varPositional
  | keywordOnly
  | varKeyword
deriving DecidableEq

/-- The integer value of the `IntEnum` member (what `json.dumps`
serializes `arg.kind` as). -/
def ParamKind.toInt : ParamKind → Int
  | .positionalOnly => 0
  | .positionalOrKeyword => 1
  | .varPositional => 2
  | .keywordOnly => 3
  | .varKeyword => 4

/-- One entry of `inspect.signature(f).parameters`: declared name, kind,
annotation and default (`Option.none` models `inspect.Parameter.empty`). -/
structure ParamInfo where
  name : String
  kind : ParamKind
  annotation : Option PyVal
  default : Option PyVal

/-- `repr(v)`: a total textual rendering of a value.  Its exact text is
immaterial to the claims; what matters is that the result is a string. -/
def pyRepr : PyVal → String
  | .pnone => "None"
  | .pbool b => if b then "True" else "False"
  | .pint n => toString n
  | .pstr s => s
  | .pbytes bs => "bytes " ++ toString bs
  | .pcode tag => "code object " ++ toString tag
  | .ptuple _ => "tuple(...)"
  | .plist _ => "list(...)"
  | .pdict _ => "dict(...)"

/-- `repr` applied to an annotation/default slot, rendering the
`inspect.Parameter.empty` sentinel like Python would render the class. -/
def reprSlot : Option PyVal → String
  | Option.none => "class inspect dot empty"
  | some v => pyRepr v

/-- `str(arg)` for an `inspect.Parameter`: the declaration text. -/
def paramDecl (p : ParamInfo) : String :=
  (match p.kind with
   | .varPositional => "*"
   | .varKeyword => "**"
   | _ => "")
  ++ p.name
  ++ (match p.annotation with
      | some a => ": " ++ pyRepr a
      | Option.none => "")
  ++ (match p.default with
      | some d => " = " ++ pyRepr d
      | Option.none => "")

/-- `str(inspect.signature(f))`. -/
def sigStr (params : List ParamInfo) : String :=
  "(" ++ String.intercalate ", " (params.map paramDecl) ++ ")"

/-- Model of a Python function as `FunctionProperties` consumes it:
`__name__`, the signature parameters, the code object's declared
descriptor attributes with their runtime values (the
`self.code.__class__.__dict__` entries of member/getset descriptor
type, discovered reflectively), and the source text
(`Option.none` when `inspect.getsource` raises `OSError`). -/
structure FunctionModel where
  name : String
  params : List ParamInfo
  codeAttrs : List (String × PyVal)
  sourceText : Option String

/-- `str(bytes)` rendering used for byte-sequence code attributes. -/
def bytesStr (bs : List Nat) : String :=
  "bytes " ++ toString bs

/-- First comprehension of the `code` sub-dict: attributes whose runtime
value is a `tuple`, rendered with `list(...)` — the raw elements are
kept unchanged inside the list. -/
def codeTuplePart : List (String × PyVal) → List (String × PyVal)
  | [] => []
  | (nm, .ptuple xs) :: rest => (nm, .plist xs) :: codeTuplePart rest
  | _ :: rest => codeTuplePart rest

/-- Second comprehension of the `code` sub-dict: attributes whose
runtime value is `bytes`, rendered with `str(...)`. -/
def codeBytesPart : List (String × PyVal) → List (String × PyVal)
  | [] => []
  | (nm, .pbytes bs) :: rest => (nm, .pstr (bytesStr bs)) :: codeBytesPart rest
  | _ :: rest => codeBytesPart rest

/-- Third comprehension of the `code` sub-dict: attributes whose runtime
value is an `int` or `str`, passed through unchanged. -/
def codeScalarPart : List (String × PyVal) → List (String × PyVal)
  | [] => []
  | (nm, .pint n) :: rest => (nm, .pint n) :: codeScalarPart rest
  | (nm, .pstr s) :: rest => (nm, .pstr s) :: codeScalarPart rest
  | _ :: rest => codeScalarPart rest

/-- The merged `code` sub-dict of `props` (the three comprehensions
merged with `**`; the attribute names are distinct and the three type
filters are disjoint, so the merge is the concatenation). -/
def codeProps (attrs : List (String × PyVal)) : List (String × PyVal) :=
  codeTuplePart attrs ++ codeBytesPart attrs ++ codeScalarPart attrs

/-- The per-parameter record of the `args` sub-dict of `props`. -/
def argEntry (p : ParamInfo) : String × PyVal :=
  (p.name, .pdict [
    ("name", .pstr p.name),
    ("annotation", .pstr (reprSlot p.annotation)),
    ("default", .pstr (reprSlot p.default)),
    ("kind", .pint p.kind.toInt),
    ("decl", .pstr (paramDecl p))])

/-- `FunctionProperties.props`: the outer comprehension stringifies the
five public properties (`name`, `signature`, `args`, `code`, `source`,
in class-body order), then the explicit `"args"` and `"code"` keys
override the stringified placeholders in place.  Evaluating the
`source` property calls `inspect.getsource`, which raises `OSError`
when the source text cannot be located, so `props` itself fails then. -/
def FunctionProperties.props (f : FunctionModel) : Except PyError PyVal :=
  match f.sourceText with
  | Option.none => .error .osError
  | some src =>
    .ok (.pdict [
      ("name", .pstr f.name),
      ("signature", .pstr (sigStr f.params)),
      ("args", .pdict (f.params.map argEntry)),
      ("code", .pdict (codeProps f.codeAttrs)),
      ("source", .pstr src)])

mutual

/-- `json.dumps` serializability of a value: `None`, booleans, numbers
and strings serialize; tuples and lists serialize when every element
does; string-keyed dicts serialize when every value does; `bytes` and
code objects make `json.dumps` raise `TypeError`. -/
def jsonSerializable : PyVal → Bool
  | .pnone => true
  | .pbool _ => true
  | .pint _ => true
  | .pstr _ => true
  | .pbytes _ => false
  | .pcode _ => false
  | .ptuple xs => jsonSerializableList xs
  | .plist xs => jsonSerializableList xs
  | .pdict kvs => jsonSerializablePairs kvs

def jsonSerializableList : List PyVal → Bool
  | [] => true
  | x :: xs => jsonSerializable x && jsonSerializableList xs

def jsonSerializablePairs : List (String × PyVal) → Bool
  | [] => true
  | kv :: kvs => jsonSerializable kv.2 && jsonSerializablePairs kvs

end

/-- Whether a code-attribute value, if it is a tuple, has only
JSON-serializable elements (the raw elements survive into the output). -/
def tupleElemsOk : PyVal → Bool
  | .ptuple xs => jsonSerializableList xs
  | _ => true

/-- Whether `props f` succeeds with a fully JSON-serializable value. -/
def propsIsSerializable (f : FunctionModel) : Bool :=
  match FunctionProperties.props f with
  | .ok v => jsonSerializable v
  | .error _ => false

/-- An outermost frame: no caller (`f_back is None`). -/
def frameOuter : PyFrame :=
  .mk Option.none 1 "test.py" [] [] [] [] Option.none

/-- A frame for `hello("Hello")` from `test.py`: parameters `a`, `b`,
`c` where `b` and `c` were left at their default `None`. -/
def frameHello : PyFrame :=
  .mk Option.none 4 "test.py" [] []
    [("a", PyVal.pstr "Hello"), ("b", PyVal.pnone), ("c", PyVal.pnone)]
    ["a", "b", "c"] Option.none

/-- The `FunctionContext` over `frameHello`. -/
def fcHello : FunctionContext := ⟨0, frameHello⟩

/-- A frame whose file has four source lines and whose current line is
the second. -/
def frameWithSource : PyFrame :=
  .mk Option.none 2 "demo.py" [] [] [] []
    (some ["line one", "line two", "line three", "line four"])

/-- A frame currently executing line 5 of a source-less file. -/
def frameLine5 : PyFrame :=
  .mk Option.none 5 "demo.py" [] [] [] [] Option.none

/-- Declared parameters of a function `def g(a, b = None)`: `a` required,
`b` defaulting to `None`. -/
def paramsAB : List (String × Option PyVal) :=
  [("a", Option.none), ("b", some PyVal.pnone)]

/-- A call site supplying only `a`. -/
def suppliedA : List (String × PyVal) :=
  [("a", PyVal.pstr "Hello")]

/-- A function whose code object holds a nested function: its
`co_consts` tuple contains a code object (as CPython compiles any
enclosing function of a nested `def` or `lambda`). -/
def fNested : FunctionModel :=
  { name := "outer", params := [],
    codeAttrs := [("co_consts", PyVal.ptuple [PyVal.pcode 1])],
    sourceText := some "def outer(): return lambda: 0" }

/-- The `hello` function of `test.py`, with representative code-object
attributes of each serialization class. -/
def fHello : FunctionModel :=
  { name := "hello",
    params := [⟨"a", .positionalOrKeyword, some (.pstr "str"), Option.none⟩,
               ⟨"b", .positionalOrKeyword, some (.pstr "str"), some .pnone⟩,
               ⟨"c", .positionalOrKeyword, some (.pstr "str"), some .pnone⟩],
    codeAttrs := [("co_consts", .ptuple [.pnone]),
                  ("co_code", .pbytes [100, 101]),
                  ("co_argcount", .pint 3),
                  ("co_filename", .pstr "test.py")],
    sourceText := some "def hello(a, b = None, c = None): ..." }

theorem crash0_eq_raise (fuel : Nat) : crash0 fuel = CrashOutcome.recursionError := by
  induction fuel with
  | zero => rfl
  | succ n ih => simp [crash0, ih]

/-- C2 (counterexample): with 24 stack levels available, `crash(0)` does
not return normally — the retry in the `except RecursionError` handler
overflows again and the `RecursionError` propagates to the caller. -/
theorem crash_zero_raises_at_depth_24 :
    crash0 24 = CrashOutcome.recursionError ∧ crash0 24 ≠ CrashOutcome.ret := by
  refine ⟨crash0_eq_raise 24, ?_⟩
  simp [crash0_eq_raise 24]

/-- C2 (amended): for every recursion budget, `crash(0)` raises
`RecursionError` rather than returning normally: the recursion exhausts
the budget, the handler's single retry exhausts it again, and the error
propagates out of every level of the `try`/`except` chain. -/
theorem crash_zero_always_propagates (fuel : Nat) :
    crash0 fuel = CrashOutcome.recursionError ∧ crash0 fuel ≠ CrashOutcome.ret := by
  refine ⟨crash0_eq_raise fuel, ?_⟩
  simp [crash0_eq_raise fuel]

/-- C3 (counterexample): reading `prevctx` on a context whose wrapped
frame is outermost raises `TypeError` — `ContextObject.__init__` passes
`self._frame.f_back`, which is `None`, to `inspect.getframeinfo`.  The
source defines no `NoCallerFrame` error, and the `TypeError` escapes the
read operation uncaught. -/
theorem prevctx_outermost_raises_typeerror :
    (ContextObject.init (some frameOuter)).bind ContextObject.prevctx =
      Except.error PyError.typeError := rfl

/-- C3 (amended): `prevctx` on a context over an outermost frame
(`f_back is None`) raises `TypeError`, an uncaught fault, because the
new `ContextObject`'s constructor calls `inspect.getframeinfo(None, 3)`;
on any frame with a caller it returns a fresh context over that
caller. -/
theorem prevctx_behavior (c : ContextObject) :
    (c.frameRef.back = Option.none →
      c.prevctx = Except.error PyError.typeError) ∧
    (∀ f, c.frameRef.back = some f → c.prevctx = Except.ok (freshCtx f)) := by
  constructor
  · intro h
    simp [ContextObject.prevctx, h, ContextObject.init]
  · intro f h
    simp [ContextObject.prevctx, h, ContextObject.init, freshCtx]

/-- C3 (witness for `prevctx_behavior`): on the concrete outermost
frame the `TypeError` case fires. -/
theorem prevctx_behavior_witness :
    ContextObject.prevctx (freshCtx frameOuter) = Except.error PyError.typeError :=
  (prevctx_behavior (freshCtx frameOuter)).1 rfl

/-- C5: `valueargs` is exactly `args` with the entries whose value is
the `None` sentinel removed, and in particular it is never longer than
`args`. -/
theorem valueargs_filters_none (fc : FunctionContext)
    (l : List (String × PyVal)) (h : fc.args = Except.ok l) :
    fc.valueargs = Except.ok (l.filter (fun kv => !(PyVal.isNone kv.2))) ∧
    (l.filter (fun kv => !(PyVal.isNone kv.2))).length ≤ l.length := by
  constructor
  · simp [FunctionContext.valueargs, h, Except.map]
  · exact List.length_filter_le _ _

/-- C5 (witness for `valueargs_filters_none`): on the `hello("Hello")`
frame, `args` has three entries and `valueargs` keeps only `a`. -/
theorem valueargs_filters_none_witness :
    fcHello.valueargs = Except.ok [("a", PyVal.pstr "Hello")] ∧
    fcHello.args =
      Except.ok [("a", PyVal.pstr "Hello"), ("b", PyVal.pnone), ("c", PyVal.pnone)] := by
  refine ⟨?_, rfl⟩
  exact (valueargs_filters_none fcHello
    [("a", PyVal.pstr "Hello"), ("b", PyVal.pnone), ("c", PyVal.pnone)] rfl).1

/-- C8 (counterexample): `lineno` is not backed by the construction-time
snapshot.  A context built while its frame executes line 5 reports 5,
but after the aliased frame advances to line 7 the same context reports
7 — the value changed between accesses, while the snapshot still holds
the construction-time line 5. -/
theorem lineno_changes_after_frame_advance :
    (ContextObject.init (some frameLine5)).map
      (fun c => (c.lineno, (c.withFrameAdvanced 7).lineno, c.info.lineno)) =
      Except.ok (5, 7, 5) ∧ (5 : Nat) ≠ 7 := by
  exact ⟨rfl, by decide⟩

/-- C8 (amended): `filename` is backed by the `_info` snapshot computed
once in `__init__` and does not change when the frame advances, but
`lineno` reads the live frame's `f_lineno` on every access and follows
the frame's current line. -/
theorem lineno_live_filename_snapshot (c : ContextObject) (n : Nat) :
    (c.withFrameAdvanced n).lineno = n ∧
    (c.withFrameAdvanced n).filename = c.filename ∧
    c.filename = c.info.filename ∧
    c.lineno = c.frameRef.f_lineno := by
  obtain ⟨fr, i, cf, cp, idc⟩ := c
  cases fr
  exact ⟨rfl, rfl, rfl, rfl⟩

/-- C9: the `function` and `program` sub-objects are memoized: a second
access returns the very object stored by the first access (same
allocation identity) and leaves the context's state — including its
allocation counter — unchanged, so each sub-object is constructed at
most once per `ContextObject`. -/
theorem sub_objects_memoized (c : ContextObject) :
    (c.functionProp.2.functionProp.1 = c.functionProp.1 ∧
     c.functionProp.2.functionProp.2 = c.functionProp.2) ∧
    (c.programProp.2.programProp.1 = c.programProp.1 ∧
     c.programProp.2.programProp.2 = c.programProp.2) := by
  constructor
  · cases hc : c.cachedFunction <;>
      simp [ContextObject.functionProp, hc]
  · cases hc : c.cachedProgram <;>
      simp [ContextObject.programProp, hc]

theorem crashDispatch_in_range_ne_missing (r : Int) (h0 : 0 ≤ r) (h1 : r ≤ 10) :
    crashDispatch r ≠ FaultCategory.missingModule := by
  interval_cases r <;> decide

/-- C6 (counterexample): selector 10 executes the numeric-magnitude
overflow branch (`[1]*10**34`), not the `else` missing-module branch,
and it is not re-selected at random (here the would-be random value 3
dispatches to a different category than the one selector 10 runs). -/
theorem crash_selector_ten_claim_false :
    crashCategory (some 10) 3 = FaultCategory.magnitudeOverflow ∧
    crashCategory (some 10) 3 ≠ FaultCategory.missingModule ∧
    crashCategory (some 10) 3 ≠ crashDispatch 3 := by
  refine ⟨?_, ?_, ?_⟩ <;> decide

/-- C6 (amended): selectors 0 through 10 map in order to the eleven
`if`/`elif` fault branches (recursion, out-of-memory, division-by-zero,
undefined-name, undefined-attribute, malformed-code, user-interrupt,
invalid-operator, remove-of-absent-element, key-not-found,
numeric-magnitude-overflow); the `else` missing-module branch is
unreachable, because an out-of-range or absent selector is first
replaced by a uniformly random value in 0..10; exactly one branch
executes per call (`crashCategory` is a function into one category). -/
theorem crash_selector_mapping (num : Option Int) (rand : Int)
    (h0 : 0 ≤ rand) (h1 : rand ≤ 10) :
    crashCategory num rand ≠ FaultCategory.missingModule ∧
    crashCategory (some 10) rand = FaultCategory.magnitudeOverflow ∧
    crashCategory Option.none rand = crashDispatch rand ∧
    (∀ n : Int, 0 ≤ n → n ≤ 10 → crashCategory (some n) rand = crashDispatch n) ∧
    (∀ n : Int, n < 0 ∨ 10 < n → crashCategory (some n) rand = crashDispatch rand) := by
  have hin : ∀ n : Int, 0 ≤ n → n ≤ 10 →
      crashCategory (some n) rand = crashDispatch n := by
    intro n hn0 hn1
    have : (0 ≤ n ∧ n ≤ 10) := ⟨hn0, hn1⟩
    simp [crashCategory, crashSelect, this]
  have hout : ∀ n : Int, n < 0 ∨ 10 < n →
      crashCategory (some n) rand = crashDispatch rand := by
    intro n hn
    have : ¬(0 ≤ n ∧ n ≤ 10) := by omega
    simp [crashCategory, crashSelect, this]
  refine ⟨?_, ?_, rfl, hin, hout⟩
  · cases num with
    | none => exact crashDispatch_in_range_ne_missing rand h0 h1
    | some n =>
      by_cases hn : 0 ≤ n ∧ n ≤ 10
      · rw [hin n hn.1 hn.2]
        exact crashDispatch_in_range_ne_missing n hn.1 hn.2
      · rw [hout n (by omega)]
        exact crashDispatch_in_range_ne_missing rand h0 h1
  · rw [hin 10 (by decide) (by decide)]
    decide

/-- C6 (witness for `crash_selector_mapping`): at selector 2 with a
would-be random value 0, the claim's conclusions hold; in particular
`crash(2)` runs the division-by-zero branch, never the missing-module
branch. -/
theorem crash_selector_mapping_witness :
    crashCategory (some 2) 0 ≠ FaultCategory.missingModule ∧
    crashCategory (some 2) 0 = FaultCategory.divisionByZero :=
  ⟨(crash_selector_mapping (some 2) 0 (by decide) (by decide)).1, by decide⟩

/-- C1: every named property access on the module facade walks the live
stack at that instant: the client's access pushes the `__getattr__`
frame (`pushFrame client`), `frameify` — called from `__getattr__` —
returns `__getattr__`'s own frame via `currentframe().f_back`, and the
further `.f_back` skips the facade's last own frame and lands exactly
on the external caller's frame.  The facade then builds a fresh
`ContextObject` over that frame (`freshCtx client`, with both
memoization slots empty) and returns that context's property of the
requested name.  The result is a function of the current stack and the
name alone — the module holds no state, so no caller is cached across
accesses. -/
theorem getattr_resolves_external_caller (client : PyFrame) (p : CtxProp) :
    moduleGetattr (pushFrame client) p =
      Except.ok ((freshCtx client).getattrDyn p) ∧
    frameify (pushFrame (pushFrame client)) = some (pushFrame client) ∧
    (pushFrame client).back = some client ∧
    (freshCtx client).cachedFunction = Option.none ∧
    (freshCtx client).cachedProgram = Option.none := by
  exact ⟨rfl, rfl, rfl, rfl, rfl⟩

theorem lookupVal_append (xs ys : List (String × PyVal)) (k : String) :
    lookupVal (xs ++ ys) k =
      match lookupVal xs k with
      | some v => some v
      | Option.none => lookupVal ys k := by
  induction xs with
  | nil => simp [lookupVal]
  | cons kv rest ih =>
    by_cases h : kv.1 = k <;> simp [lookupVal, h, ih]

theorem lookupVal_singleton_ne (n k : String) (v : PyVal) (h : ¬ n = k) :
    lookupVal [(n, v)] k = Option.none := by
  simp [lookupVal, h]

theorem bindArgs_extra_none_irrelevant (params : List (String × Option PyVal))
    (supplied : List (String × PyVal)) (n : String)
    (hd : ∀ d, (n, d) ∈ params → d = some PyVal.pnone)
    (hs : lookupVal supplied n = Option.none) :
    bindArgs params (supplied ++ [(n, PyVal.pnone)]) = bindArgs params supplied := by
  induction params with
  | nil => rfl
  | cons p rest ih =>
    obtain ⟨nm, d⟩ := p
    have hrest : ∀ d2, (n, d2) ∈ rest → d2 = some PyVal.pnone :=
      fun d2 h2 => hd d2 (List.mem_cons_of_mem _ h2)
    have ihr := ih hrest
    by_cases hnm : nm = n
    · subst hnm
      have hdd : d = some PyVal.pnone := hd d (List.mem_cons_self _ _)
      subst hdd
      simp [bindArgs, lookupVal_append, hs, lookupVal, ihr]
    · have hnm2 : ¬ n = nm := fun h => hnm h.symm
      have h1 : lookupVal (supplied ++ [(n, PyVal.pnone)]) nm =
          lookupVal supplied nm := by
        rw [lookupVal_append]
        cases hcase : lookupVal supplied nm with
        | some v => rfl
        | none => exact lookupVal_singleton_ne n nm PyVal.pnone hnm2
      simp [bindArgs, h1, ihr]

/-- C10: the "no value" sentinel of `valueargs` is the language's
`None`.  First, call-time binding cannot tell an explicitly supplied
`None` from an absent argument whose default is `None`: the bound
locals are identical, so every downstream view of the frame (including
`args`/`valueargs`) is identical.  Second, any argument entry whose
value is `None` — however it got bound — is excluded from
`valueargs`. -/
theorem none_sentinel_indistinguishable
    (params : List (String × Option PyVal)) (supplied : List (String × PyVal))
    (n : String)
    (hd : ∀ d, (n, d) ∈ params → d = some PyVal.pnone)
    (hs : lookupVal supplied n = Option.none) :
    bindArgs params (supplied ++ [(n, PyVal.pnone)]) = bindArgs params supplied ∧
    (∀ (fc : FunctionContext) (vs : List (String × PyVal)) (x : String),
      fc.valueargs = Except.ok vs → (x, PyVal.pnone) ∉ vs) := by
  refine ⟨bindArgs_extra_none_irrelevant params supplied n hd hs, ?_⟩
  intro fc vs x hv
  unfold FunctionContext.valueargs at hv
  cases ha : fc.args with
  | error e => rw [ha] at hv; simp [Except.map] at hv
  | ok l =>
    rw [ha] at hv
    simp only [Except.map, Except.ok.injEq] at hv
    subst hv
    intro hmem
    have := (List.mem_filter.mp hmem).2
    simp [PyVal.isNone] at this

/-- C10 (witness for `none_sentinel_indistinguishable`): for
`def g(a, b = None)` called with only `a` supplied, explicitly adding
`b = None` to the call binds the very same locals. -/
theorem none_sentinel_witness :
    bindArgs paramsAB (suppliedA ++ [("b", PyVal.pnone)]) =
      bindArgs paramsAB suppliedA :=
  (none_sentinel_indistinguishable paramsAB suppliedA "b"
    (by intro d hdm; simp [paramsAB] at hdm; exact hdm) rfl).1

theorem jsonSerializablePairs_append (xs ys : List (String × PyVal)) :
    jsonSerializablePairs (xs ++ ys) =
      (jsonSerializablePairs xs && jsonSerializablePairs ys) := by
  induction xs with
  | nil => simp [jsonSerializablePairs]
  | cons kv rest ih => simp [jsonSerializablePairs, ih, Bool.and_assoc]

theorem argEntries_serializable (ps : List ParamInfo) :
    jsonSerializablePairs (ps.map argEntry) = true := by
  induction ps with
  | nil => rfl
  | cons p rest ih =>
    have hhead : jsonSerializable (argEntry p).2 = true := rfl
    simp [jsonSerializablePairs, hhead, ih]

theorem codeTuplePart_serializable (attrs : List (String × PyVal))
    (h : ∀ kv ∈ attrs, tupleElemsOk kv.2 = true) :
    jsonSerializablePairs (codeTuplePart attrs) = true := by
  induction attrs with
  | nil => rfl
  | cons kv rest ih =>
    have hrest := ih (fun kv2 h2 => h kv2 (List.mem_cons_of_mem _ h2))
    have hhead := h kv (List.mem_cons_self _ _)
    obtain ⟨nm, v⟩ := kv
    cases v with
    | ptuple xs =>
      simp only [tupleElemsOk] at hhead
      simp [codeTuplePart, jsonSerializablePairs, jsonSerializable, hhead, hrest]
    | pnone => simpa [codeTuplePart] using hrest
    | pbool b => simpa [codeTuplePart] using hrest
    | pint n => simpa [codeTuplePart] using hrest
    | pstr s => simpa [codeTuplePart] using hrest
    | pbytes bs => simpa [codeTuplePart] using hrest
    | pcode t => simpa [codeTuplePart] using hrest
    | plist xs => simpa [codeTuplePart] using hrest
    | pdict kvs => simpa [codeTuplePart] using hrest

theorem codeBytesPart_serializable (attrs : List (String × PyVal)) :
    jsonSerializablePairs (codeBytesPart attrs) = true := by
  induction attrs with
  | nil => rfl
  | cons kv rest ih =>
    obtain ⟨nm, v⟩ := kv
    cases v <;> simpa [codeBytesPart, jsonSerializablePairs, jsonSerializable] using ih

theorem codeScalarPart_serializable (attrs : List (String × PyVal)) :
    jsonSerializablePairs (codeScalarPart attrs) = true := by
  induction attrs with
  | nil => rfl
  | cons kv rest ih =>
    obtain ⟨nm, v⟩ := kv
    cases v <;> simpa [codeScalarPart, jsonSerializablePairs, jsonSerializable] using ih

/-- C4 (counterexample): metadata extraction of a function with a nested
function is not JSON-serializable in full — `co_consts` is rendered via
`list(...)`, which keeps the nested code object raw inside the list, and
`json.dumps` rejects code objects.  The extraction itself succeeds (the
failure is in the output, not an exception). -/
theorem props_nested_code_not_serializable :
    propsIsSerializable fNested = false ∧
    FunctionProperties.props fNested ≠ Except.error PyError.osError := by
  refine ⟨rfl, ?_⟩
  intro h
  exact Except.noConfusion h

/-- C4 (amended): extraction is deterministic (extracting twice yields
identical output), and whenever the function's source is available and
every element of its tuple-valued code attributes is itself
JSON-renderable, the whole output is JSON-serializable: annotations,
defaults and byte-sequence fields are pre-rendered to text, but tuple
elements (such as `co_consts` entries) are kept raw, so a
non-serializable element there — e.g. a nested code object — defeats
full serializability. -/
theorem props_deterministic_and_serializable (f : FunctionModel) (src : String)
    (hsrc : f.sourceText = some src)
    (hattrs : ∀ kv ∈ f.codeAttrs, tupleElemsOk kv.2 = true) :
    FunctionProperties.props f = FunctionProperties.props f ∧
    propsIsSerializable f = true := by
  refine ⟨rfl, ?_⟩
  simp [propsIsSerializable, FunctionProperties.props, hsrc, jsonSerializable,
    jsonSerializablePairs, jsonSerializablePairs_append, codeProps,
    argEntries_serializable f.params,
    codeTuplePart_serializable f.codeAttrs hattrs,
    codeBytesPart_serializable f.codeAttrs,
    codeScalarPart_serializable f.codeAttrs]

/-- C4 (witness for `props_deterministic_and_serializable`): the
`hello` function of `test.py` — tuple attribute `co_consts` holding only
`None`, a bytes attribute, an int and a str attribute — extracts to a
fully serializable output. -/
theorem props_serializable_witness : propsIsSerializable fHello = true :=
  (props_deterministic_and_serializable fHello
    "def hello(a, b = None, c = None): ..." rfl
    (by intro kv hkv; fin_cases hkv <;> rfl)).2

/-- C7: `sourcelns` never raises.  `ContextObject.__init__` snapshots
`inspect.getframeinfo(frame, 3)`; when the frame's source is
unavailable both `code_context` and `index` are `None`, the subscript
raises `TypeError`, and the `except TypeError` handler returns `None`
(an explicit absent result); when the source is available and the
frame's current line lies within it, `sourcelns` returns exactly the
source line containing the call (the current line of the three-line
context window). -/
theorem sourcelns_reads_current_line (f : PyFrame) :
    ContextObject.init (some f) = Except.ok (freshCtx f) ∧
    (f.sourceLines = Option.none →
      (freshCtx f).sourcelns = Except.ok Option.none) ∧
    (∀ lines, f.sourceLines = some lines → 1 ≤ f.f_lineno →
      f.f_lineno ≤ lines.length →
      (freshCtx f).sourcelns = Except.ok (lines.get? (f.f_lineno - 1))) := by
  refine ⟨rfl, ?_, ?_⟩
  · intro h
    simp [freshCtx, ContextObject.sourcelns, getframeinfo, h, pySubscript]
  · intro lines hsl h1 h2
    have hfl : (freshCtx f).info = getframeinfo f 3 := rfl
    simp only [ContextObject.sourcelns, hfl, getframeinfo, hsl]
    generalize hS :
      (max 0 (min ((f.f_lineno : Int) - 1 - 1) ((lines.length : Int) - 3))).toNat = S
    have hSle : S ≤ f.f_lineno - 1 := by omega
    have hidx3 : f.f_lineno - 1 - S < 3 := by omega
    have hlt : f.f_lineno - 1 < lines.length := by omega
    have hdrop : S + (f.f_lineno - 1 - S) = f.f_lineno - 1 := by omega
    obtain ⟨v, hv⟩ : ∃ v, lines.get? (f.f_lineno - 1) = some v := by
      simp [List.get?_eq_getElem?, List.getElem?_eq_some]
      exact ⟨lines.get ⟨f.f_lineno - 1, hlt⟩, hlt, rfl⟩
    have hv2 : lines[f.f_lineno - 1]? = some v := by
      rw [← List.get?_eq_getElem?]; exact hv
    have key : ((lines.drop S).take 3).get? (f.f_lineno - 1 - S) = some v := by
      simp [List.get?_eq_getElem?, List.getElem?_take, hidx3, List.getElem?_drop,
        hdrop, hv2]
    have key2 : (List.take 3 (List.drop S lines))[f.f_lineno - 1 - S]? = some v := by
      rw [← List.get?_eq_getElem?]; exact key
    simp [pySubscript, key2, hv2]

/-- C7 (witness for `sourcelns_reads_current_line`): on a frame at line
2 of a four-line file `sourcelns` returns line two; on a source-less
frame it returns the absent result instead of raising. -/
theorem sourcelns_witness :
    (freshCtx frameWithSource).sourcelns = Except.ok (some "line two") ∧
    (freshCtx frameLine5).sourcelns = Except.ok Option.none := by
  constructor
  · exact (sourcelns_reads_current_line frameWithSource).2.2
      ["line one", "line two", "line three", "line four"] rfl (by decide) (by decide)
  · exact (sourcelns_reads_current_line frameLine5).2.1 rfl



